import Mathlib

/-!
Verification of the announcements router
(`src/backend/routers/announcements.py`).

The module is embedded shallowly:

* Timestamps are natural numbers obtained by packing the six fields of an
  ISO-8601 `YYYY-MM-DDTHH:MM:SS` string positionally, so chronological order
  coincides with the order on `Nat`.
* `datetime.fromisoformat` (Python standard library, an external collaborator
  of the file under analysis) is modelled by `fromisoformat` below: it fails
  (returns `none`) on the empty string and on any text that is not of the
  exact `YYYY-MM-DDTHH:MM:SS` shape with in-range fields, and succeeds on
  well-formed text, which is all the router depends on.
* MongoDB collections are association lists from internal identifiers to
  documents; `bson.ObjectId` text parsing is modelled by `parseObjectId`
  (24 hexadecimal characters).
* A Python function that can raise is modelled as returning
  `Except PyError α`; handlers additionally return the resulting state of the
  announcements collection, so that an early `raise` visibly leaves the
  store unchanged.
* `datetime.now()` is passed in as an explicit `now : Nat` parameter.
-/

/-- Value of a decimal digit character, `none` on a non-digit. -/
def digitVal (c : Char) : Option Nat :=
  if c.isDigit then some (c.toNat - 48) else none

/-- Two-digit decimal number from two characters. -/
def num2 (a b : Char) : Option Nat := do
  let x ← digitVal a
  let y ← digitVal b
  pure (10 * x + y)

/-- Four-digit decimal number from four characters. -/
def num4 (a b c d : Char) : Option Nat := do
  let x ← num2 a b
  let y ← num2 c d
  pure (100 * x + y)

/-- Packs year, month, day, hour, minute, second into a single `Nat` whose
numeric order is chronological order. -/
def packTimestamp (y mo d h mi s : Nat) : Nat :=
  ((((y * 100 + mo) * 100 + d) * 100 + h) * 100 + mi) * 100 + s

/-- Character-list worker for `fromisoformat`. -/
def fromisoChars : List Char → Option Nat
  | [y1, y2, y3, y4, c1, m1, m2, c2, d1, d2, c3, h1, h2, c4, n1, n2, c5, s1, s2] =>
    if c1 = '-' ∧ c2 = '-' ∧ c3 = 'T' ∧ c4 = ':' ∧ c5 = ':' then do
      let y ← num4 y1 y2 y3 y4
      let mo ← num2 m1 m2
      let d ← num2 d1 d2
      let h ← num2 h1 h2
      let mi ← num2 n1 n2
      let s ← num2 s1 s2
      if 1 ≤ mo ∧ mo ≤ 12 ∧ 1 ≤ d ∧ d ≤ 31 ∧ h ≤ 23 ∧ mi ≤ 59 ∧ s ≤ 59 then
        pure (packTimestamp y mo d h mi s)
      else none
    else none
  | _ => none

/-- Model of Python's `datetime.fromisoformat`: parses `YYYY-MM-DDTHH:MM:SS`
text into a packed timestamp, failing (as the Python function raises
`ValueError`) on the empty string and on any other malformed text. -/
def fromisoformat (s : String) : Option Nat :=
  fromisoChars s.data

/-- Value of a hexadecimal digit character, `none` otherwise. -/
def hexVal (c : Char) : Option Nat :=
  if c.isDigit then some (c.toNat - 48)
  else if 'a' ≤ c ∧ c ≤ 'f' then some (c.toNat - 87)
  else if 'A' ≤ c ∧ c ≤ 'F' then some (c.toNat - 55)
  else none

/-- Accumulating hexadecimal reader over a character list. -/
def parseHex : List Char → Nat → Option Nat
  | [], acc => some acc
  | c :: rest, acc =>
    match hexVal c with
    | none => none
    | some v => parseHex rest (16 * acc + v)

/-- Model of `bson.ObjectId(text)`: succeeds exactly on 24-character
hexadecimal strings, yielding the opaque internal identifier (here the
decoded number); raises — modelled by `none` — otherwise. -/
def parseObjectId (s : String) : Option Nat :=
  if s.length = 24 then parseHex s.data 0 else none

/-- An announcement document as stored in `announcements_collection`.
`none` in `expiration_date` models a document missing that key (the source
reads it with `announcement.get("expiration_date", "")`); `none` in
`start_date` models a missing key or a stored `None`.  `created_at` and
`updated_at` hold the packed timestamp whose ISO text the source stores
(`datetime.now().isoformat()`). -/
structure AnnouncementDoc where
  message : String
  start_date : Option String
  expiration_date : Option String
  created_by : String
  created_at : Nat
  updated_by : Option String
  updated_at : Option Nat
deriving DecidableEq, Repr

/-- Errors a handler can produce: `http s d` models
`raise HTTPException(status_code = s, detail = d)`; `valueError` models an
uncaught Python `ValueError` escaping the handler. -/
inductive PyError where
  | http (status : Nat) (detail : String)
  | valueError
deriving DecidableEq, Repr

def unauthorizedErr : PyError := .http 401 "Unauthorized"

def invalidExpirationFormatErr : PyError := .http 400 "Invalid expiration date format"

def invalidStartFormatErr : PyError := .http 400 "Invalid start date format"

def expirationInPastErr : PyError := .http 400 "Expiration date must be in the future"

def invalidIdErr : PyError := .http 400 "Invalid announcement ID"

def notFoundErr : PyError := .http 404 "Announcement not found"

/-- True exactly on the two `InvalidDateFormat` errors of the source. -/
def PyError.isInvalidDateFormat : PyError → Bool
  | .http 400 "Invalid expiration date format" => true
  | .http 400 "Invalid start date format" => true
  | _ => false

/-- The announcements collection: internal identifier paired with document. -/
abbrev AnnStore := List (Nat × AnnouncementDoc)

/-- The teachers collection, reduced to the usernames present (the source
only ever tests presence with `find_one({"_id": username})`). -/
abbrev TeacherStore := List String

/-- Second half of `is_announcement_active`: the optional start-date check
performed after the expiration guard.  Mirrors
`if "start_date" in announcement and announcement["start_date"]:` —
the branch is taken only for a present, truthy (non-empty) value. -/
def startCheckResult (now : Nat) (a : AnnouncementDoc) : Except PyError Bool :=
  match a.start_date with
  | none => .ok true
  | some s =>
    if s = "" then .ok true
    else
      match fromisoformat s with
      | none => .error .valueError
      | some start => if now < start then .ok false else .ok true

/-- Embedding of `is_announcement_active` (lines 18–33).  The source parses
`announcement.get("expiration_date", "")` with no exception handler, so a
missing, empty or malformed expiration date propagates `ValueError`. -/
def is_announcement_active (now : Nat) (a : AnnouncementDoc) : Except PyError Bool :=
  match fromisoformat (a.expiration_date.getD "") with
  | none => .error .valueError
  | some expiration =>
    if now > expiration then .ok false
    else startCheckResult now a

/-- Python truthiness of an `Optional[str]` value: `None` and the empty
string are falsy, every other string truthy. -/
def pyTruthy : Option String → Bool
  | none => false
  | some s => !(s == "")

/-- Model of `update_one({"_id": oid}, {"$set": patch})`: applies the patch
to the first document whose identifier matches, leaving all others as they
were. -/
def setFirst (store : AnnStore) (oid : Nat) (patch : AnnouncementDoc → AnnouncementDoc) :
    AnnStore :=
  match store with
  | [] => []
  | p :: rest => if p.1 == oid then (p.1, patch p.2) :: rest else p :: setFirst rest oid patch

/-- Model of `delete_one({"_id": oid})`: removes the first matching document
and reports the resulting collection together with `deleted_count`. -/
def deleteFirst (store : AnnStore) (oid : Nat) : AnnStore × Nat :=
  match store with
  | [] => ([], 0)
  | p :: rest =>
    if p.1 == oid then (rest, 1)
    else
      let r := deleteFirst rest oid
      (p :: r.1, r.2)

/-- Embedding of `create_announcement` (lines 70–122).  Returns the handler
outcome together with the announcements collection afterwards; `freshId` is
the identifier the store assigns in `insert_one`. -/
def create_announcement (store : AnnStore) (teachers : TeacherStore) (now : Nat)
    (freshId : Nat) (message : String) (expiration_date : String) (username : String)
    (start_date : Option String) : Except PyError AnnouncementDoc × AnnStore :=
  if !(teachers.contains username) then (.error unauthorizedErr, store)
  else
    match fromisoformat expiration_date with
    | none => (.error invalidExpirationFormatErr, store)
    | some exp_date =>
      if exp_date ≤ now then (.error expirationInPastErr, store)
      else if pyTruthy start_date && (fromisoformat (start_date.getD "")).isNone then
        (.error invalidStartFormatErr, store)
      else
        let announcement : AnnouncementDoc :=
          { message := message
            start_date := start_date
            expiration_date := some expiration_date
            created_by := username
            created_at := now
            updated_by := none
            updated_at := none }
        (.ok announcement, store ++ [(freshId, announcement)])

/-- Embedding of `update_announcement` (lines 125–187). -/
def update_announcement (store : AnnStore) (teachers : TeacherStore) (now : Nat)
    (announcement_id : String) (message : String) (expiration_date : String)
    (username : String) (start_date : Option String) : Except PyError String × AnnStore :=
  if !(teachers.contains username) then (.error unauthorizedErr, store)
  else
    match parseObjectId announcement_id with
    | none => (.error invalidIdErr, store)
    | some obj_id =>
      match store.find? (fun p => p.1 == obj_id) with
      | none => (.error notFoundErr, store)
      | some _ =>
        match fromisoformat expiration_date with
        | none => (.error invalidExpirationFormatErr, store)
        | some exp_date =>
          if exp_date ≤ now then (.error expirationInPastErr, store)
          else if pyTruthy start_date && (fromisoformat (start_date.getD "")).isNone then
            (.error invalidStartFormatErr, store)
          else
            (.ok "Announcement updated successfully",
             setFirst store obj_id (fun d =>
               { d with
                 message := message
                 start_date := start_date
                 expiration_date := some expiration_date
                 updated_by := some username
                 updated_at := some now }))

/-- Embedding of `delete_announcement` (lines 190–209). -/
def delete_announcement (store : AnnStore) (teachers : TeacherStore)
    (announcement_id : String) (username : String) : Except PyError String × AnnStore :=
  if !(teachers.contains username) then (.error unauthorizedErr, store)
  else
    match parseObjectId announcement_id with
    | none => (.error invalidIdErr, store)
    | some obj_id =>
      let result := deleteFirst store obj_id
      if result.2 == 0 then (.error notFoundErr, result.1)
      else (.ok "Announcement deleted successfully", result.1)

/-- Annotation loop of `get_all_announcements`: computes `is_active` for each
document left to right, propagating an uncaught `ValueError`. -/
def annotateActive (now : Nat) : AnnStore → Except PyError (List (Nat × AnnouncementDoc × Bool))
  | [] => .ok []
  | (i, d) :: rest =>
    match is_announcement_active now d with
    | .error e => .error e
    | .ok b =>
      match annotateActive now rest with
      | .error e => .error e
      | .ok xs => .ok ((i, d, b) :: xs)

/-- Embedding of `get_all_announcements` (lines 51–67); read-only, so only
the outcome is returned. -/
def get_all_announcements (store : AnnStore) (teachers : TeacherStore) (now : Nat)
    (username : String) : Except PyError (List (Nat × AnnouncementDoc × Bool)) :=
  if !(teachers.contains username) then .error unauthorizedErr
  else annotateActive now store

/-- Filtering loop of `get_active_announcements`, left to right, propagating
an uncaught `ValueError`. -/
def filterActive (now : Nat) : AnnStore → Except PyError AnnStore
  | [] => .ok []
  | (i, d) :: rest =>
    match is_announcement_active now d with
    | .error e => .error e
    | .ok b =>
      match filterActive now rest with
      | .error e => .error e
      | .ok xs => .ok (if b then (i, d) :: xs else xs)

/-- Embedding of `get_active_announcements` (lines 36–48). -/
def get_active_announcements (store : AnnStore) (now : Nat) : Except PyError AnnStore :=
  filterActive now store

/-- Claim C1 — the code, not the claim, is at fault: on a record whose
`expiration_date` is missing, empty, or malformed, `is_announcement_active`
does not resolve to "not active"; the `datetime.fromisoformat` call raises
`ValueError`, and no handler in the function catches it, although the
`.get("expiration_date", "")` default shows the missing-key case was meant
to be tolerated. -/
theorem c1_missing_expiration_date_raises :
    (is_announcement_active 20250101000000
        { message := "m"
          start_date := none
          expiration_date := none
          created_by := "alice"
          created_at := 0
          updated_by := none
          updated_at := none } = Except.error PyError.valueError)
  ∧ (is_announcement_active 20250101000000
        { message := "m"
          start_date := none
          expiration_date := some ""
          created_by := "alice"
          created_at := 0
          updated_by := none
          updated_at := none } = Except.error PyError.valueError)
  ∧ (is_announcement_active 20250101000000
        { message := "m"
          start_date := none
          expiration_date := some "not-a-date"
          created_by := "alice"
          created_at := 0
          updated_by := none
          updated_at := none } = Except.error PyError.valueError) :=
  ⟨rfl, rfl, rfl⟩

/-- Claim C4: with a parseable expiration timestamp `e`,
`is_announcement_active` returns `false` whenever `t` is strictly after `e`,
and at `t = e` the expiration guard does not fire — the outcome is exactly
that of the remaining start-date check. -/
theorem c4_expiration_cutoff (a : AnnouncementDoc) (t e : Nat)
    (h : fromisoformat (a.expiration_date.getD "") = some e) :
    (e < t → is_announcement_active t a = Except.ok false)
  ∧ (t = e → is_announcement_active t a = startCheckResult t a) := by
  constructor
  · intro hlt
    simp [is_announcement_active, h, hlt]
  · intro heq
    subst heq
    simp [is_announcement_active, h]

/-- Witness for C4 at a concrete record and timestamps. -/
theorem c4_expiration_cutoff_witness :
    is_announcement_active 20250101000000
        { message := "m"
          start_date := none
          expiration_date := some "2020-01-01T00:00:00"
          created_by := "alice"
          created_at := 0
          updated_by := none
          updated_at := none } = Except.ok false :=
  (c4_expiration_cutoff
      { message := "m"
        start_date := none
        expiration_date := some "2020-01-01T00:00:00"
        created_by := "alice"
        created_at := 0
        updated_by := none
        updated_at := none } 20250101000000 20200101000000 rfl).1 (by decide)

/-- Claim C5: within the (parseable) expiration window, a present, non-empty,
parseable `start_date` strictly after `t` makes the record inactive, while an
absent (or empty, i.e. Python-falsy) start date, or one already reached,
leaves the record active. -/
theorem c5_start_date_window (a : AnnouncementDoc) (t e : Nat)
    (hexp : fromisoformat (a.expiration_date.getD "") = some e) (hte : t ≤ e) :
    (∀ s st, a.start_date = some s → s ≠ "" → fromisoformat s = some st → t < st →
        is_announcement_active t a = Except.ok false)
  ∧ ((a.start_date = none ∨ a.start_date = some "" ∨
        ∃ s st, a.start_date = some s ∧ fromisoformat s = some st ∧ st ≤ t) →
      is_announcement_active t a = Except.ok true) := by
  have hnotgt : ¬ t > e := Nat.not_lt.mpr hte
  constructor
  · intro s st hs hsne hparse hlt
    simp [is_announcement_active, hexp, hnotgt, startCheckResult, hs, hsne, hparse, hlt]
  · rintro (hnone | hempty | ⟨s, st, hs, hparse, hle⟩)
    · simp [is_announcement_active, hexp, hnotgt, startCheckResult, hnone]
    · simp [is_announcement_active, hexp, hnotgt, startCheckResult, hempty]
    · have hsne : s ≠ "" := by
        intro hcontr
        rw [hcontr] at hparse
        exact Option.noConfusion hparse
      simp [is_announcement_active, hexp, hnotgt, startCheckResult, hs, hsne, hparse,
        Nat.not_lt.mpr hle]

/-- Witness for C5: a record whose start date lies in the future relative to
the evaluation time is inactive even though its expiration is further out. -/
theorem c5_start_date_window_witness :
    is_announcement_active 20250101000000
        { message := "m"
          start_date := some "2098-01-01T00:00:00"
          expiration_date := some "2099-01-01T00:00:00"
          created_by := "alice"
          created_at := 0
          updated_by := none
          updated_at := none } = Except.ok false :=
  (c5_start_date_window
      { message := "m"
        start_date := some "2098-01-01T00:00:00"
        expiration_date := some "2099-01-01T00:00:00"
        created_by := "alice"
        created_at := 0
        updated_by := none
        updated_at := none } 20250101000000 20990101000000 rfl (by decide)).1
    "2098-01-01T00:00:00" 20980101000000 rfl (by decide) rfl (by decide)

/-- Claim C2, counterexample: with a known caller, a parseable-but-past
expiration date and an unparseable (non-null) start date, create fails with
ExpirationInPast rather than InvalidDateFormat — the start-date format check
does not precede the ExpirationInPast check. -/
theorem c2_start_format_after_past_check :
    (create_announcement [] ["alice"] 20250101000000 7 "m" "2000-01-01T00:00:00"
        "alice" (some "not-a-date")).1 = Except.error expirationInPastErr
  ∧ expirationInPastErr.isInvalidDateFormat = false :=
  ⟨rfl, rfl⟩

/-- Claim C2 as amended: an unparseable expiration date always fails with
InvalidDateFormat (this check precedes ExpirationInPast), while an
unparseable start date fails with InvalidDateFormat only when it is supplied
non-empty and the expiration date has already passed both of its checks. -/
theorem c2_amended_date_format_checks (store : AnnStore) (teachers : TeacherStore)
    (now freshId : Nat) (message aid expiration username : String)
    (start_date : Option String)
    (hauth : teachers.contains username = true) :
    (fromisoformat expiration = none →
      (create_announcement store teachers now freshId message expiration username
          start_date).1 = Except.error invalidExpirationFormatErr)
  ∧ (∀ e s, fromisoformat expiration = some e → now < e → start_date = some s →
      s ≠ "" → fromisoformat s = none →
      (create_announcement store teachers now freshId message expiration username
          start_date).1 = Except.error invalidStartFormatErr)
  ∧ (∀ oid pr, parseObjectId aid = some oid →
      store.find? (fun p => p.1 == oid) = some pr →
      fromisoformat expiration = none →
      (update_announcement store teachers now aid message expiration username
          start_date).1 = Except.error invalidExpirationFormatErr)
  ∧ (∀ oid pr e s, parseObjectId aid = some oid →
      store.find? (fun p => p.1 == oid) = some pr →
      fromisoformat expiration = some e → now < e → start_date = some s →
      s ≠ "" → fromisoformat s = none →
      (update_announcement store teachers now aid message expiration username
          start_date).1 = Except.error invalidStartFormatErr) := by
  have hmem : username ∈ teachers := by simpa using hauth
  refine ⟨?_, ?_, ?_, ?_⟩
  · intro h
    simp [create_announcement, hmem, h]
  · intro e s he hlt hs hsne hbad
    simp [create_announcement, hmem, he, Nat.not_le.mpr hlt, hs, pyTruthy, hsne, hbad]
  · intro oid pr hoid hfind h
    simp [update_announcement, hmem, hoid, hfind, h]
  · intro oid pr e s hoid hfind he hlt hs hsne hbad
    simp [update_announcement, hmem, hoid, hfind, he, Nat.not_le.mpr hlt, hs, pyTruthy,
      hsne, hbad]

/-- Witness for the amended C2: a concrete create with unparseable expiration
text fails with InvalidDateFormat. -/
theorem c2_amended_date_format_checks_witness :
    (create_announcement [] ["alice"] 20250101000000 7 "m" "bad-date" "alice" none).1
      = Except.error invalidExpirationFormatErr :=
  (c2_amended_date_format_checks [] ["alice"] 20250101000000 7 "m"
      "aaaaaaaaaaaaaaaaaaaaaaaa" "bad-date" "alice" none (by decide)).1 rfl

/-- Claim C3: with a parseable expiration timestamp `e`, both write handlers
reject `e ≤ now` with ExpirationInPast (update once its caller, identifier
and existence checks pass), and neither handler ever produces
ExpirationInPast when `now < e`. -/
theorem c3_expiration_in_past_boundary (store : AnnStore) (teachers : TeacherStore)
    (now freshId : Nat) (message aid expiration username : String)
    (start_date : Option String) (e : Nat)
    (hauth : teachers.contains username = true)
    (hparse : fromisoformat expiration = some e) :
    (e ≤ now →
        (create_announcement store teachers now freshId message expiration username
            start_date).1 = Except.error expirationInPastErr
      ∧ (∀ oid pr, parseObjectId aid = some oid →
          store.find? (fun p => p.1 == oid) = some pr →
          (update_announcement store teachers now aid message expiration username
              start_date).1 = Except.error expirationInPastErr))
  ∧ (now < e →
        (create_announcement store teachers now freshId message expiration username
            start_date).1 ≠ Except.error expirationInPastErr
      ∧ (update_announcement store teachers now aid message expiration username
            start_date).1 ≠ Except.error expirationInPastErr) := by
  have hmem : username ∈ teachers := by simpa using hauth
  constructor
  · intro hle
    refine ⟨?_, ?_⟩
    · simp [create_announcement, hmem, hparse, hle]
    · intro oid pr hoid hfind
      simp [update_announcement, hmem, hoid, hfind, hparse, hle]
  · intro hlt
    have hnle : ¬ e ≤ now := Nat.not_le.mpr hlt
    refine ⟨?_, ?_⟩
    · cases hst : pyTruthy start_date && (fromisoformat (start_date.getD "")).isNone <;>
        simp [create_announcement, hmem, hparse, hnle, hst, invalidStartFormatErr,
          expirationInPastErr]
    · cases hoid : parseObjectId aid with
      | none => simp [update_announcement, hmem, hoid, invalidIdErr, expirationInPastErr]
      | some oid =>
        cases hfind : store.find? (fun p => p.1 == oid) with
        | none =>
          simp [update_announcement, hmem, hoid, hfind, notFoundErr, expirationInPastErr]
        | some pr =>
          cases hst : pyTruthy start_date && (fromisoformat (start_date.getD "")).isNone <;>
            simp [update_announcement, hmem, hoid, hfind, hparse, hnle, hst,
              invalidStartFormatErr, expirationInPastErr]

/-- Witness for C3: a past expiration date on a create by a known caller is
rejected with ExpirationInPast. -/
theorem c3_expiration_in_past_boundary_witness :
    (create_announcement [] ["alice"] 20250101000000 7 "m" "2000-01-01T00:00:00"
        "alice" none).1 = Except.error expirationInPastErr :=
  ((c3_expiration_in_past_boundary [] ["alice"] 20250101000000 7 "m"
      "aaaaaaaaaaaaaaaaaaaaaaaa" "2000-01-01T00:00:00" "alice" none 20000101000000
      (by decide) rfl).1 (by decide)).1

/-- Claim C6: every failing create fails with Unauthorized, InvalidDateFormat
or ExpirationInPast, and leaves the announcements collection exactly as it
was — `insert_one` runs only after every check has passed. -/
theorem c6_failed_create_is_atomic (store : AnnStore) (teachers : TeacherStore)
    (now freshId : Nat) (message expiration username : String)
    (start_date : Option String) (err : PyError)
    (h : (create_announcement store teachers now freshId message expiration username
        start_date).1 = Except.error err) :
    (err = unauthorizedErr ∨ err.isInvalidDateFormat = true ∨ err = expirationInPastErr)
  ∧ (create_announcement store teachers now freshId message expiration username
      start_date).2 = store := by
  by_cases h1 : username ∈ teachers
  · cases h2 : fromisoformat expiration with
    | none =>
      simp [create_announcement, h1, h2] at h ⊢
      subst h
      exact Or.inr (Or.inl rfl)
    | some e =>
      by_cases h3 : e ≤ now
      · simp [create_announcement, h1, h2, h3] at h ⊢
        simp_all
      · cases h4 : pyTruthy start_date && (fromisoformat (start_date.getD "")).isNone with
        | true =>
          simp [create_announcement, h1, h2, h3, h4] at h ⊢
          subst h
          exact Or.inr (Or.inl rfl)
        | false =>
          simp [create_announcement, h1, h2, h3, h4] at h
  · simp [create_announcement, h1] at h ⊢
    simp_all

/-- Witness for C6 at a concrete rejected create. -/
theorem c6_failed_create_is_atomic_witness :
    (create_announcement [] ["alice"] 20250101000000 7 "m" "2000-01-01T00:00:00"
        "alice" none).2 = [] :=
  (c6_failed_create_is_atomic [] ["alice"] 20250101000000 7 "m" "2000-01-01T00:00:00"
      "alice" none expirationInPastErr rfl).2

/-- Claim C7: an identifier text that `ObjectId` cannot parse makes update
fail with InvalidId (an error distinct from NotFound) before the store is
consulted, whatever its contents, and leaves the store unchanged. -/
theorem c7_invalid_id_precedes_not_found (store : AnnStore) (teachers : TeacherStore)
    (now : Nat) (aid message expiration username : String) (start_date : Option String)
    (hauth : teachers.contains username = true)
    (hid : parseObjectId aid = none) :
    update_announcement store teachers now aid message expiration username start_date
      = (Except.error invalidIdErr, store)
  ∧ invalidIdErr ≠ notFoundErr := by
  have hmem : username ∈ teachers := by simpa using hauth
  constructor
  · simp [update_announcement, hmem, hid]
  · simp [invalidIdErr, notFoundErr]

/-- Witness for C7: updating with a malformed identifier on a populated
store fails with InvalidId. -/
theorem c7_invalid_id_precedes_not_found_witness :
    update_announcement
        [(1, { message := "old"
               start_date := none
               expiration_date := some "2099-01-01T00:00:00"
               created_by := "alice"
               created_at := 0
               updated_by := none
               updated_at := none })]
        ["alice"] 0 "not-an-id" "m" "2099-01-01T00:00:00" "alice" none
      = (Except.error invalidIdErr,
         [(1, { message := "old"
                start_date := none
                expiration_date := some "2099-01-01T00:00:00"
                created_by := "alice"
                created_at := 0
                updated_by := none
                updated_at := none })]) :=
  (c7_invalid_id_precedes_not_found
      [(1, { message := "old"
             start_date := none
             expiration_date := some "2099-01-01T00:00:00"
             created_by := "alice"
             created_at := 0
             updated_by := none
             updated_at := none })]
      ["alice"] 0 "not-an-id" "m" "2099-01-01T00:00:00" "alice" none
      (by decide) rfl).1

/-- Claim C10: for a known caller and a well-formed identifier matching no
stored record, update fails with NotFound before any date validation — the
date texts are arbitrary, possibly unparseable or in the past — and the
store is unchanged. -/
theorem c10_not_found_precedes_date_validation (store : AnnStore)
    (teachers : TeacherStore) (now : Nat)
    (aid message expiration username : String) (start_date : Option String) (oid : Nat)
    (hauth : teachers.contains username = true)
    (hid : parseObjectId aid = some oid)
    (hfind : store.find? (fun p => p.1 == oid) = none) :
    update_announcement store teachers now aid message expiration username start_date
      = (Except.error notFoundErr, store) := by
  have hmem : username ∈ teachers := by simpa using hauth
  simp [update_announcement, hmem, hid, hfind]

/-- Witness for C10: an update against an empty store with a well-formed
identifier and garbage dates fails with NotFound. -/
theorem c10_not_found_precedes_date_validation_witness :
    update_announcement [] ["alice"] 0 "000000000000000000000001" "m" "garbage"
        "alice" (some "also-garbage") = (Except.error notFoundErr, []) :=
  c10_not_found_precedes_date_validation [] ["alice"] 0 "000000000000000000000001"
    "m" "garbage" "alice" (some "also-garbage") 1 (by decide) (by decide) rfl

/-- `setFirst` patches exactly the first record matching the identifier. -/
theorem setFirst_find_some (store : AnnStore) (oid : Nat)
    (patch : AnnouncementDoc → AnnouncementDoc) (d : AnnouncementDoc)
    (h : store.find? (fun p => p.1 == oid) = some (oid, d)) :
    (setFirst store oid patch).find? (fun p => p.1 == oid) = some (oid, patch d) := by
  induction store with
  | nil => simp at h
  | cons p rest ih =>
    rcases p with ⟨i, dd⟩
    by_cases hp : (i == oid) = true
    · have hi : i = oid := by simpa using hp
      subst hi
      rw [List.find?_cons_of_pos _ (by simp)] at h
      simp only [Option.some.injEq, Prod.mk.injEq] at h
      rw [h.2]
      simp [setFirst, List.find?_cons_of_pos]
    · rw [List.find?_cons_of_neg _ (by simpa using hp)] at h
      simp only [setFirst, hp, Bool.false_eq_true, if_false]
      rw [List.find?_cons_of_neg _ (by simpa using hp)]
      exact ih h

/-- `setFirst` leaves every record with a different identifier in place. -/
theorem setFirst_mem_of_ne (store : AnnStore) (oid : Nat)
    (patch : AnnouncementDoc → AnnouncementDoc) (q : Nat × AnnouncementDoc)
    (hq : q ∈ store) (hne : q.1 ≠ oid) : q ∈ setFirst store oid patch := by
  induction store with
  | nil => simp at hq
  | cons p rest ih =>
    rcases List.mem_cons.mp hq with h | h
    · subst h
      simp only [setFirst]
      rw [if_neg (by simpa using hne)]
      exact List.mem_cons_self _ _
    · by_cases hp : (p.1 == oid) = true
      · simp only [setFirst, hp, if_true]
        exact List.mem_cons_of_mem _ h
      · simp only [setFirst, hp, Bool.false_eq_true, if_false]
        exact List.mem_cons_of_mem _ (ih h)

/-- Claim C8: a successful update rewrites exactly `message`, `start_date`,
`expiration_date`, `updated_by` and `updated_at` on the matched record,
keeping its identifier, `created_by` and `created_at`, and leaves every
other record where it was. -/
theorem c8_update_frame (store : AnnStore) (teachers : TeacherStore)
    (now : Nat) (aid message expiration username : String) (start_date : Option String)
    (oid : Nat) (d : AnnouncementDoc)
    (hauth : teachers.contains username = true)
    (hid : parseObjectId aid = some oid)
    (hfind : store.find? (fun p => p.1 == oid) = some (oid, d))
    (hok : (update_announcement store teachers now aid message expiration username
        start_date).1 = Except.ok "Announcement updated successfully") :
    ((update_announcement store teachers now aid message expiration username
        start_date).2.find? (fun p => p.1 == oid)
      = some (oid,
          { message := message
            start_date := start_date
            expiration_date := some expiration
            created_by := d.created_by
            created_at := d.created_at
            updated_by := some username
            updated_at := some now }))
  ∧ ∀ q ∈ store, q.1 ≠ oid →
      q ∈ (update_announcement store teachers now aid message expiration username
        start_date).2 := by
  have hmem : username ∈ teachers := by simpa using hauth
  cases h2 : fromisoformat expiration with
  | none => simp [update_announcement, hmem, hid, hfind, h2] at hok
  | some e =>
    by_cases h3 : e ≤ now
    · simp [update_announcement, hmem, hid, hfind, h2, h3] at hok
    · cases h4 : pyTruthy start_date && (fromisoformat (start_date.getD "")).isNone with
      | true => simp [update_announcement, hmem, hid, hfind, h2, h3, h4] at hok
      | false =>
        constructor
        · simp [update_announcement, hmem, hid, hfind, h2, h3, h4]
          exact setFirst_find_some store oid _ d hfind
        · intro q hq hne
          simp [update_announcement, hmem, hid, hfind, h2, h3, h4]
          exact setFirst_mem_of_ne store oid _ q hq hne

/-- Witness for C8: a concrete successful update keeps `created_by`,
`created_at` and the identifier while rewriting the five update fields. -/
theorem c8_update_frame_witness :
    (update_announcement
        [(1, { message := "old"
               start_date := none
               expiration_date := some "2020-01-01T00:00:00"
               created_by := "alice"
               created_at := 20190101000000
               updated_by := none
               updated_at := none })]
        ["alice", "bob"] 20250101000000 "000000000000000000000001" "new"
        "2099-01-01T00:00:00" "bob" (some "2098-01-01T00:00:00")).2.find?
      (fun p => p.1 == 1)
      = some (1, { message := "new"
                   start_date := some "2098-01-01T00:00:00"
                   expiration_date := some "2099-01-01T00:00:00"
                   created_by := "alice"
                   created_at := 20190101000000
                   updated_by := some "bob"
                   updated_at := some 20250101000000 }) :=
  (c8_update_frame
      [(1, { message := "old"
             start_date := none
             expiration_date := some "2020-01-01T00:00:00"
             created_by := "alice"
             created_at := 20190101000000
             updated_by := none
             updated_at := none })]
      ["alice", "bob"] 20250101000000 "000000000000000000000001" "new"
      "2099-01-01T00:00:00" "bob" (some "2098-01-01T00:00:00") 1
      { message := "old"
        start_date := none
        expiration_date := some "2020-01-01T00:00:00"
        created_by := "alice"
        created_at := 20190101000000
        updated_by := none
        updated_at := none }
      (by decide) (by decide) rfl rfl).1

/-- Claim C9: every authenticated handler checks the caller before anything
else: an unknown username yields Unauthorized whatever the other arguments
look like, and the announcements collection is untouched. -/
theorem c9_unauthorized_checked_first (store : AnnStore) (teachers : TeacherStore)
    (now freshId : Nat) (aid message expiration username : String)
    (start_date : Option String)
    (hauth : teachers.contains username = false) :
    get_all_announcements store teachers now username = Except.error unauthorizedErr
  ∧ create_announcement store teachers now freshId message expiration username start_date
      = (Except.error unauthorizedErr, store)
  ∧ update_announcement store teachers now aid message expiration username start_date
      = (Except.error unauthorizedErr, store)
  ∧ delete_announcement store teachers aid username
      = (Except.error unauthorizedErr, store) := by
  have hmem : username ∉ teachers := by simpa using hauth
  refine ⟨?_, ?_, ?_, ?_⟩ <;>
    simp [get_all_announcements, create_announcement, update_announcement,
      delete_announcement, hmem]

/-- Witness for C9: an unknown caller is rejected by create even with
otherwise valid arguments, and nothing is stored. -/
theorem c9_unauthorized_checked_first_witness :
    create_announcement [] [] 0 7 "m" "2099-01-01T00:00:00" "mallory" none
      = (Except.error unauthorizedErr, []) :=
  (c9_unauthorized_checked_first [] [] 0 7 "x" "m" "2099-01-01T00:00:00" "mallory"
      none rfl).2.1
